import Mathlib

/-!
Shallow embedding of `src/lapce-app/src/editor/diff.rs`: the revision-guarded,
asynchronously computed two-buffer diff engine of a diff editor.

The file models the data the module reads and writes (document content
descriptors, revision counters, view-kind slots), the diff scheduler effect,
the result-gate callback, and the construction paths of a diff pairing, and
proves the verification claims about them.
-/

set_option autoImplicit false

namespace LapceDiff

/-- Modelled from the spec: `DiffLines` (from `lapce_core::buffer`, not under
`src/`): one contiguous diff block, tagged left-only, right-only or
both-sides, carrying line-number ranges. The gate treats it opaquely. -/
inductive DiffLines where
  | leftBlock (range : Nat × Nat)
  | rightBlock (range : Nat × Nat)
  | bothBlock (left_range right_range : Nat × Nat)
deriving DecidableEq

/-- Modelled from the spec: `DocContent` (from `crate::doc`, not under
`src/`): the content descriptor of a document, one of File(path), Local
(transient scratch) or History(version reference). -/
inductive DocContent where
  | File (path : String)
  | Local
  | History (version : String)
deriving DecidableEq

/-- `DiffInfo` from the source (lines 23-27): a side tag together with the
change sequence shared between both sides. -/
structure DiffInfo where
  is_right : Bool
  changes : List DiffLines
deriving DecidableEq

/-- Modelled from the spec: `EditorViewKind` (from `crate::editor`, not under
`src/`): the per-side view-kind slot, holding either the Diff variant written
by this module or some other non-diff variant (collapsed here to `Normal`,
out of scope). -/
inductive EditorViewKind where
  | Normal
  | Diff (info : DiffInfo)
deriving DecidableEq

/-- A rope text snapshot, modelled as the list of its lines (immutable,
cheaply shared). -/
abbrev Rope := List String

/-- Modelled from the spec: the fields of `crate::doc::Document` that
`diff.rs` reads: the content identity, the revision counter value, the
identity of the shared atomic revision counter handle
(`buffer().atomic_rev()` is an `Arc`; `atomic_id` names which shared counter
the handle points to), and the buffer text. -/
structure Document where
  content : DocContent
  rev : Nat
  atomic_id : Nat
  text : Rope
deriving DecidableEq

/-- Modelled from the spec: the fields of `EditorData` (from `crate::editor`,
not under `src/`) that `diff.rs` reads: the `new_view` view-kind slot and the
document. -/
structure EditorData where
  new_view : EditorViewKind
  doc : Document
deriving DecidableEq

/-- `DiffEditorInfo` from the source (lines 29-33): the serializable
diff-pairing descriptor used for session restore. -/
structure DiffEditorInfo where
  left_content : DocContent
  right_content : DocContent
deriving DecidableEq

/-- The two sides of `DiffEditorData` (source lines 101-108) that `diff.rs`
reads and writes; ids and scope are omitted as opaque to every claim. -/
structure DiffEditorData where
  left : EditorData
  right : EditorData
deriving DecidableEq

/-- `diff_editor_info` from the source (lines 139-144). Note: the source
reads `self.left` for both fields. -/
def diff_editor_info (d : DiffEditorData) : DiffEditorInfo :=
  { left_content := d.left.doc.content
    right_content := d.left.doc.content }

/-- The memo computation installed by `listen_diff_changes` for one side
(source lines 173-182): the (content identity, revision) key of the side's
document. -/
def doc_rev_key (doc : Document) : DocContent × Nat :=
  (doc.content, doc.rev)

/-- Modelled from the spec: floem's `create_memo` (not under `src/`) notifies
its dependents only when the computed value changes. The change detector of
one side fires between two document states exactly when the memo key
differs. -/
def memo_fires (d0 d1 : Document) : Bool :=
  decide (doc_rev_key d0 ≠ doc_rev_key d1)

/-- The arguments the diff effect passes to `rope_diff` when it spawns the
worker (source lines 234-243): both text snapshots, the right revision used
as the validity token, the handle to the right shared atomic counter for the
cooperative self-abort check, and the context-lines argument. -/
structure DiffJobCall where
  left_rope : Rope
  right_rope : Rope
  rev : Nat
  atomic_rev_id : Nat
  context_lines : Option Nat
deriving DecidableEq

/-- The values captured by the result-gate closure at dispatch time (source
lines 185-200): both sides' revisions and the identities of both sides'
shared atomic revision counters, through which the gate re-reads the current
revisions later. -/
structure GateCapture where
  left_rev : Nat
  right_rev : Nat
  left_atomic_id : Nat
  right_atomic_id : Nat
deriving DecidableEq

/-- The body of the `create_effect` in `listen_diff_changes` (source lines
184-243): read both sides' revisions, texts and atomic handles, then build
the worker call and the capture for the result gate. -/
def dispatch_diff_job (l r : EditorData) : DiffJobCall × GateCapture :=
  let left_rev := l.doc.rev
  let right_rev := r.doc.rev
  ({ left_rope := l.doc.text
     right_rope := r.doc.text
     rev := right_rev
     atomic_rev_id := r.doc.atomic_id
     context_lines := some 3 },
   { left_rev := left_rev
     right_rev := right_rev
     left_atomic_id := l.doc.atomic_id
     right_atomic_id := r.doc.atomic_id })

/-- The mutable state visible to the result gate when it runs: the values the
two shared atomic revision counters hold at gate time, the two view-kind
slots, and the rest of the editor state (a frame the gate never touches). -/
structure GateEnv where
  left_atomic_rev : Nat
  right_atomic_rev : Nat
  left_view : EditorViewKind
  right_view : EditorViewKind
  rest : Nat
deriving DecidableEq

/-- The result-gate callback of `listen_diff_changes` (source lines 203-230):
on `None` return; if the left current atomic revision differs from the
captured left revision, return; if the right current atomic revision differs
from the captured right revision, return; otherwise set both view slots to
the Diff variant built from the same change sequence (`is_right = false` on
the left, `is_right = true` on the right). -/
def result_gate (cap : GateCapture) (env : GateEnv)
    (changes : Option (List DiffLines)) : GateEnv :=
  match changes with
  | none => env
  | some changes =>
    if env.left_atomic_rev ≠ cap.left_rev then env
    else if env.right_atomic_rev ≠ cap.right_rev then env
    else
      { env with
        left_view := EditorViewKind.Diff { is_right := false, changes := changes }
        right_view := EditorViewKind.Diff { is_right := true, changes := changes } }

/-- Modelled from the spec: the observable construction result of the
`new_editor` closure in `DiffEditorInfo::to_data`. `EditorData::new` plus
`go_to_location` (not under `src/`) opens an editor on the file at the path;
`EditorData::new_local` (not under `src/`) makes a fresh empty local
editor. -/
inductive ConstructedEditor where
  | opened_file (path : String)
  | fresh_local
deriving DecidableEq

/-- The `new_editor` closure of `DiffEditorInfo::to_data` (source lines
48-76), by content descriptor. -/
def new_editor (content : DocContent) : ConstructedEditor :=
  match content with
  | DocContent.File path => ConstructedEditor.opened_file path
  | DocContent.Local => ConstructedEditor.fresh_local
  | DocContent.History _ => ConstructedEditor.fresh_local

/-- An observable action performed by a diff-pairing construction path. -/
inductive Action where
  | listen_installed
  | job_dispatched (job : DiffJobCall)
deriving DecidableEq

/-- `listen_diff_changes` (source lines 169-245) as an action trace: the
listener is installed once, and its `create_effect` (modelled from the spec:
a floem effect, not under `src/`, runs its closure immediately at creation)
dispatches the initial diff job over the two sides' current documents. -/
def listen_diff_changes_trace (l r : EditorData) : List Action :=
  [Action.listen_installed, Action.job_dispatched (dispatch_diff_job l r).1]

/-- `DiffEditorData::new` (source lines 111-137) as a construction trace:
build the two sides, then call `listen_diff_changes` once. -/
def new_trace (l r : EditorData) : DiffEditorData × List Action :=
  ({ left := l, right := r }, listen_diff_changes_trace l r)

/-- `DiffEditorInfo::to_data` (source lines 36-98) as a construction trace,
parametrized by the external document provider resolving a content
descriptor to the constructed editor state; `to_data` resolves both sides,
registers the pairing, then calls `listen_diff_changes` once. -/
def to_data_trace (resolve : DocContent → EditorData) (info : DiffEditorInfo) :
    DiffEditorData × List Action :=
  let l := resolve info.left_content
  let r := resolve info.right_content
  ({ left := l, right := r }, listen_diff_changes_trace l r)

/-- `DiffEditorData::copy` (source lines 146-167) as a construction trace;
`EditorData::copy` (not under `src/`) yields the copied per-side editor
states, passed in here as `l` and `r`; `copy` then calls
`listen_diff_changes` once on the copy. -/
def copy_trace (l r : EditorData) : DiffEditorData × List Action :=
  ({ left := l, right := r }, listen_diff_changes_trace l r)

/-- Claim C1: for every completed diff job delivering `Some` result, if
either side's current atomic revision differs from the revision captured at
dispatch time, the result-gate callback returns without mutating anything:
the gate state is returned unchanged. -/
theorem C1_stale_result_discarded (cap : GateCapture) (env : GateEnv)
    (cs : List DiffLines)
    (h : env.left_atomic_rev ≠ cap.left_rev ∨
      env.right_atomic_rev ≠ cap.right_rev) :
    result_gate cap env (some cs) = env := by
  unfold result_gate
  rcases h with h | h
  · simp [h]
  · by_cases hl : env.left_atomic_rev ≠ cap.left_rev <;> simp [hl, h]

/-- Witness for C1: a concrete stale delivery (left bumped from 0 to 1) is
discarded with no state change. -/
theorem C1_stale_result_discarded_witness :
    ((1 : Nat) ≠ 0 ∨ (0 : Nat) ≠ 0) ∧
      result_gate ⟨0, 0, 5, 6⟩
          ⟨1, 0, EditorViewKind.Normal, EditorViewKind.Normal, 7⟩
          (some [DiffLines.bothBlock (0, 1) (0, 1)])
        = ⟨1, 0, EditorViewKind.Normal, EditorViewKind.Normal, 7⟩ :=
  ⟨Or.inl (by decide),
    C1_stale_result_discarded ⟨0, 0, 5, 6⟩
      ⟨1, 0, EditorViewKind.Normal, EditorViewKind.Normal, 7⟩
      [DiffLines.bothBlock (0, 1) (0, 1)] (Or.inl (by decide))⟩

/-- Claim C2: when both captured revisions equal the current atomic
revisions at gate time, the gate publishes to both sides: the left view slot
becomes Diff with `is_right = false` and the right view slot becomes Diff
with `is_right = true`, both built from the same change sequence. -/
theorem C2_fresh_result_published (cap : GateCapture) (env : GateEnv)
    (cs : List DiffLines)
    (hl : env.left_atomic_rev = cap.left_rev)
    (hr : env.right_atomic_rev = cap.right_rev) :
    (result_gate cap env (some cs)).left_view
        = EditorViewKind.Diff { is_right := false, changes := cs } ∧
      (result_gate cap env (some cs)).right_view
        = EditorViewKind.Diff { is_right := true, changes := cs } := by
  unfold result_gate
  simp [hl, hr]

/-- Witness for C2: a concrete fresh delivery is published to both sides
with matching tags and the same change sequence. -/
theorem C2_fresh_result_published_witness :
    (3 : Nat) = 3 ∧ (4 : Nat) = 4 ∧
      (result_gate ⟨3, 4, 5, 6⟩
            ⟨3, 4, EditorViewKind.Normal, EditorViewKind.Normal, 7⟩
            (some [DiffLines.leftBlock (0, 2)])).left_view
          = EditorViewKind.Diff
              { is_right := false, changes := [DiffLines.leftBlock (0, 2)] } ∧
        (result_gate ⟨3, 4, 5, 6⟩
              ⟨3, 4, EditorViewKind.Normal, EditorViewKind.Normal, 7⟩
              (some [DiffLines.leftBlock (0, 2)])).right_view
            = EditorViewKind.Diff
                { is_right := true, changes := [DiffLines.leftBlock (0, 2)] } :=
  ⟨rfl, rfl,
    C2_fresh_result_published ⟨3, 4, 5, 6⟩
      ⟨3, 4, EditorViewKind.Normal, EditorViewKind.Normal, 7⟩
      [DiffLines.leftBlock (0, 2)] rfl rfl⟩

/-- Claim C5: a `None` delivery (worker self-aborted) is discarded; the gate
performs no publication and leaves the state unchanged. -/
theorem C5_none_discarded (cap : GateCapture) (env : GateEnv) :
    result_gate cap env none = env :=
  rfl

/-- Claim C4: every execution of the result-gate callback is both-or-neither:
either both view slots are unchanged, or the delivery was `Some cs` and both
slots are set to the Diff views built from that same accepted `cs`; no path
writes only one side. -/
theorem C4_both_or_neither (cap : GateCapture) (env : GateEnv)
    (changes : Option (List DiffLines)) :
    ((result_gate cap env changes).left_view = env.left_view ∧
        (result_gate cap env changes).right_view = env.right_view) ∨
      (∃ cs, changes = some cs ∧
        (result_gate cap env changes).left_view
          = EditorViewKind.Diff { is_right := false, changes := cs } ∧
        (result_gate cap env changes).right_view
          = EditorViewKind.Diff { is_right := true, changes := cs }) := by
  cases changes with
  | none => exact Or.inl ⟨rfl, rfl⟩
  | some cs =>
    by_cases hl : env.left_atomic_rev ≠ cap.left_rev
    · exact Or.inl (by unfold result_gate; simp [hl])
    · by_cases hr : env.right_atomic_rev ≠ cap.right_rev
      · exact Or.inl (by unfold result_gate; simp [hl, hr])
      · refine Or.inr ⟨cs, rfl, ?_, ?_⟩ <;>
          (unfold result_gate; simp [hl, hr])

/-- Claim C3, evaluated at a failing input: for a pairing whose left content
is Local and whose right content is File "a.txt", the descriptor produced by
`diff_editor_info` carries Local as `right_content` (the source reads
`self.left` for both fields, line 142), which differs from the right
editor's actual content descriptor. -/
theorem C3_right_content_read_from_left :
    (diff_editor_info
          { left := { new_view := EditorViewKind.Normal,
                      doc := { content := DocContent.Local, rev := 0,
                               atomic_id := 0, text := [] } }
            right := { new_view := EditorViewKind.Normal,
                       doc := { content := DocContent.File "a.txt", rev := 0,
                                atomic_id := 1, text := [] } } }).right_content
        = DocContent.Local ∧
      DocContent.Local ≠ DocContent.File "a.txt" :=
  ⟨rfl, by decide⟩

/-- Claim C6: one side's change detector, a memo keyed on the (content
identity, revision) pair of the document, fires between two document states
exactly when the identity or the revision changed; in particular it does not
fire when both are unchanged. -/
theorem C6_change_detector_keyed_on_identity_and_rev (d0 d1 : Document) :
    memo_fires d0 d1 = true ↔ (d0.content ≠ d1.content ∨ d0.rev ≠ d1.rev) := by
  simp only [memo_fires, doc_rev_key, decide_eq_true_eq, ne_eq, Prod.mk.injEq,
    not_and]
  tauto

/-- Claim C7: every dispatched diff job carries both sides' text snapshots,
passes the right-side revision to the worker as the validity token together
with the right shared atomic counter handle, uses `Some 3` context lines,
and the gate capture holds both sides' revisions and both sides' shared
atomic counter handles, sufficient to re-read the current revisions later. -/
theorem C7_dispatch_payload (l r : EditorData) :
    (dispatch_diff_job l r).1.left_rope = l.doc.text ∧
      (dispatch_diff_job l r).1.right_rope = r.doc.text ∧
      (dispatch_diff_job l r).1.rev = r.doc.rev ∧
      (dispatch_diff_job l r).1.atomic_rev_id = r.doc.atomic_id ∧
      (dispatch_diff_job l r).1.context_lines = some 3 ∧
      (dispatch_diff_job l r).2.left_rev = l.doc.rev ∧
      (dispatch_diff_job l r).2.right_rev = r.doc.rev ∧
      (dispatch_diff_job l r).2.left_atomic_id = l.doc.atomic_id ∧
      (dispatch_diff_job l r).2.right_atomic_id = r.doc.atomic_id :=
  ⟨rfl, rfl, rfl, rfl, rfl, rfl, rfl, rfl, rfl⟩

/-- Claim C8: the result gate leaves the frame and the revision counters
untouched, any view slot it writes is written with the Diff variant, and it
never reads the view slots back: replacing the slots' prior contents either
leaves both runs passing the slots through unchanged, or both runs publish
the same Diff values independent of the prior contents. -/
theorem C8_diff_only_writes_no_reads (cap : GateCapture) (env : GateEnv)
    (changes : Option (List DiffLines)) :
    (result_gate cap env changes).rest = env.rest ∧
      (result_gate cap env changes).left_atomic_rev = env.left_atomic_rev ∧
      (result_gate cap env changes).right_atomic_rev = env.right_atomic_rev ∧
      ((result_gate cap env changes).left_view = env.left_view ∨
        ∃ i, (result_gate cap env changes).left_view = EditorViewKind.Diff i) ∧
      ((result_gate cap env changes).right_view = env.right_view ∨
        ∃ i, (result_gate cap env changes).right_view = EditorViewKind.Diff i) ∧
      ∀ v w,
        ((result_gate cap { env with left_view := v, right_view := w }
              changes).left_view = v ∧
          (result_gate cap { env with left_view := v, right_view := w }
              changes).right_view = w ∧
          (result_gate cap env changes).left_view = env.left_view ∧
          (result_gate cap env changes).right_view = env.right_view) ∨
        ((result_gate cap { env with left_view := v, right_view := w }
              changes).left_view = (result_gate cap env changes).left_view ∧
          (result_gate cap { env with left_view := v, right_view := w }
              changes).right_view = (result_gate cap env changes).right_view) := by
  cases changes with
  | none =>
    exact ⟨rfl, rfl, rfl, Or.inl rfl, Or.inl rfl,
      fun v w => Or.inl ⟨rfl, rfl, rfl, rfl⟩⟩
  | some cs =>
    by_cases hl : env.left_atomic_rev ≠ cap.left_rev
    · refine ⟨?_, ?_, ?_, ?_, ?_, ?_⟩ <;> (unfold result_gate; simp [hl])
    · by_cases hr : env.right_atomic_rev ≠ cap.right_rev
      · refine ⟨?_, ?_, ?_, ?_, ?_, ?_⟩ <;> (unfold result_gate; simp [hl, hr])
      · refine ⟨?_, ?_, ?_, ?_, ?_, ?_⟩
        · unfold result_gate; simp [hl, hr]
        · unfold result_gate; simp [hl, hr]
        · unfold result_gate; simp [hl, hr]
        · exact Or.inr ⟨{ is_right := false, changes := cs },
            by unfold result_gate; simp [hl, hr]⟩
        · exact Or.inr ⟨{ is_right := true, changes := cs },
            by unfold result_gate; simp [hl, hr]⟩
        · intro v w; exact Or.inr (by unfold result_gate; simp [hl, hr])

/-- Claim C9: `to_data` constructs a side whose content descriptor is
History as a fresh local editor, exactly as for Local, and independently of
the historical version reference, which is never used to load content. -/
theorem C9_history_side_is_fresh_local (ref0 ref1 : String) :
    new_editor (DocContent.History ref0) = ConstructedEditor.fresh_local ∧
      new_editor (DocContent.History ref0) = new_editor DocContent.Local ∧
      new_editor (DocContent.History ref0)
        = new_editor (DocContent.History ref1) :=
  ⟨rfl, rfl, rfl⟩

/-- Claim C10: each construction path of a diff pairing (`new`, `to_data`,
`copy`) installs the diff-change listener exactly once, and its trace
contains the immediate dispatch of an initial diff job over the two sides'
current text snapshots. -/
theorem C10_listener_once_with_initial_dispatch (l r : EditorData)
    (resolve : DocContent → EditorData) (info : DiffEditorInfo) :
    ((new_trace l r).2.count Action.listen_installed = 1 ∧
        ∃ job, Action.job_dispatched job ∈ (new_trace l r).2 ∧
          job.left_rope = l.doc.text ∧ job.right_rope = r.doc.text) ∧
      ((copy_trace l r).2.count Action.listen_installed = 1 ∧
        ∃ job, Action.job_dispatched job ∈ (copy_trace l r).2 ∧
          job.left_rope = l.doc.text ∧ job.right_rope = r.doc.text) ∧
      ((to_data_trace resolve info).2.count Action.listen_installed = 1 ∧
        ∃ job, Action.job_dispatched job ∈ (to_data_trace resolve info).2 ∧
          job.left_rope = (resolve info.left_content).doc.text ∧
          job.right_rope = (resolve info.right_content).doc.text) := by
  refine ⟨⟨?_, ?_⟩, ⟨?_, ?_⟩, ⟨?_, ?_⟩⟩
  · simp [new_trace, listen_diff_changes_trace, List.count_cons]
  · exact ⟨(dispatch_diff_job l r).1,
      by simp [new_trace, listen_diff_changes_trace], rfl, rfl⟩
  · simp [copy_trace, listen_diff_changes_trace, List.count_cons]
  · exact ⟨(dispatch_diff_job l r).1,
      by simp [copy_trace, listen_diff_changes_trace], rfl, rfl⟩
  · simp [to_data_trace, listen_diff_changes_trace, List.count_cons]
  · exact ⟨(dispatch_diff_job (resolve info.left_content)
        (resolve info.right_content)).1,
      by simp [to_data_trace, listen_diff_changes_trace], rfl, rfl⟩

end LapceDiff
